import Mathlib

/-!
Shallow embedding of the job/candidate match-scoring logic of the jobauto
repository (Express + Prisma backend).  The scoring code lives in the jobs
router (recommendations handler, job-listing handler, job-detail handler),
the applications router (apply handler) and the AI router; it is pure string
and arithmetic manipulation, embedded here with `String`/`List`/`ℚ`.
-/

/-- JS `hay.startsWith(needle)` on character lists: `beginsWith hay needle`. -/
def beginsWith : List Char → List Char → Bool
  | _, [] => true
  | [], _ :: _ => false
  | a :: as, b :: bs => a == b && beginsWith as bs

/-- JS `String.prototype.includes` on character lists: `containsSub hay needle`
is true when `needle` occurs contiguously inside `hay`. -/
def containsSub : List Char → List Char → Bool
  | [], needle => needle.isEmpty
  | a :: t, needle => beginsWith (a :: t) needle || containsSub t needle

/-- JS `s.toLowerCase()`: lowercase every character (ASCII-faithful). -/
def lowerStr (s : String) : String :=
  ⟨s.data.map Char.toLower⟩

/-- JS `hay.includes(needle)` on strings. -/
def strIncludes (hay needle : String) : Bool :=
  containsSub hay.toList needle.toList

/-- Job preferences record (Prisma `JobPreferences`): the fields the scorer
reads.  `minMatchScore` is nullable in the store, hence `Option`. -/
structure JobPreferences where
  desiredRoles : List String
  desiredLocations : List String
  remotePreference : Option String
  minMatchScore : Option ℤ
deriving DecidableEq

/-- Candidate profile as the scorer sees it: skill names plus preferences. -/
structure Profile where
  skills : List String
  prefs : JobPreferences
deriving DecidableEq

/-- Job posting fields read by the scorer.  `location` and `remoteType` are
nullable columns. -/
structure Job where
  title : String
  location : Option String
  remoteType : Option String
  skillsRequired : List String
deriving DecidableEq

/-- Scorer output: integer score plus ordered reason strings. -/
structure MatchResult where
  matchScore : ℤ
  matchReasons : List String
deriving DecidableEq

/-- JS `Math.round` (round half toward positive infinity), on rationals. -/
def jsRound (q : ℚ) : ℤ := ⌊q + 1 / 2⌋

/-- Source: `userSkills = userProfile.skills.map((s) => s.name.toLowerCase())`. -/
def userSkillsL (p : Profile) : List String := p.skills.map lowerStr

/-- Source: `jobSkills = job.skillsRequired.map((s) => s.toLowerCase())`. -/
def jobSkillsL (j : Job) : List String := j.skillsRequired.map lowerStr

/-- The per-pair skill predicate used in every scoring site:
`userSkill.includes(skill) || skill.includes(userSkill)` (both inputs already
lowercased by the caller). -/
def pairMatches (userSkill skill : String) : Bool :=
  strIncludes userSkill skill || strIncludes skill userSkill

/-- Source: `matchingSkills = jobSkills.filter((skill) =>
userSkills.some((userSkill) => userSkill.includes(skill) ||
skill.includes(userSkill)))`. -/
def matchingSkills (p : Profile) (j : Job) : List String :=
  (jobSkillsL j).filter fun skill =>
    (userSkillsL p).any fun userSkill => pairMatches userSkill skill

/-- The raw-string skill match relation implied by the per-pair predicate:
candidate skill `c` against job skill `j`, each lowercased first. -/
def skillMatches (c j : String) : Bool :=
  pairMatches (lowerStr c) (lowerStr j)

/-- Skill component of the recommendations score:
`if (jobSkills.length > 0) score += (matchingSkills.length / jobSkills.length) * 50`. -/
def skillScoreQ (p : Profile) (j : Job) : ℚ :=
  if 0 < (jobSkillsL j).length then
    (((matchingSkills p j).length : ℚ) / ((jobSkillsL j).length : ℚ)) * 50
  else 0

/-- Role condition: `prefs.desiredRoles?.some((role) =>
job.title.toLowerCase().includes(role.toLowerCase()))`. -/
def roleHit (p : Profile) (j : Job) : Bool :=
  p.prefs.desiredRoles.any fun role => strIncludes (lowerStr j.title) (lowerStr role)

/-- Location condition: `prefs.desiredLocations?.some((loc) =>
job.location?.toLowerCase().includes(loc.toLowerCase()))`; a null job
location makes the optional chain falsy. -/
def locHit (p : Profile) (j : Job) : Bool :=
  p.prefs.desiredLocations.any fun loc =>
    match j.location with
    | some l => strIncludes (lowerStr l) (lowerStr loc)
    | none => false

/-- Remote condition: `prefs.remotePreference && job.remoteType ===
prefs.remotePreference`; a null or empty preference is falsy in JS. -/
def remoteHit (p : Profile) (j : Job) : Bool :=
  match p.prefs.remotePreference with
  | some pref => pref != "" && j.remoteType == some pref
  | none => false

/-- Role component (20 points when the role condition holds). -/
def roleScoreQ (p : Profile) (j : Job) : ℚ := if roleHit p j then 20 else 0

/-- Location component (15 points when the location condition holds). -/
def locScoreQ (p : Profile) (j : Job) : ℚ := if locHit p j then 15 else 0

/-- Remote-preference component (15 points when the remote condition holds). -/
def remoteScoreQ (p : Profile) (j : Job) : ℚ := if remoteHit p j then 15 else 0

/-- Pre-rounding score of the recommendations handler: `score` starts at 0 and
each guarded `score +=` adds one component, in source order. -/
def recScoreQ (p : Profile) (j : Job) : ℚ :=
  skillScoreQ p j + roleScoreQ p j + locScoreQ p j + remoteScoreQ p j

/-- Reason list of the recommendations handler: each guarded `reasons.push`
appends one string, in source order (skill, role, location, remote).  The
skill push sits inside the `jobSkills.length > 0` branch and additionally
requires `matchingSkills.length > 0`. -/
def recReasons (p : Profile) (j : Job) : List String :=
  (if 0 < (jobSkillsL j).length ∧ 0 < (matchingSkills p j).length then
    [toString (matchingSkills p j).length ++ " skill matches"] else [])
  ++ (if roleHit p j then ["Matches desired role"] else [])
  ++ (if locHit p j then ["Preferred location"] else [])
  ++ (if remoteHit p j then ["Matches work preference"] else [])

/-- The recommendations-path scorer: `matchScore: Math.round(score)`,
`matchReasons: reasons`. -/
def recMatch (p : Profile) (j : Job) : MatchResult :=
  ⟨jsRound (recScoreQ p j), recReasons p j⟩

/-- Source: `const minMatchScore = prefs.minMatchScore || 50`: JS falsy coalescing,
so a stored 0 (and a missing value) both yield 50. -/
def minThreshold (m : Option ℤ) : ℤ :=
  match m with
  | some v => if v = 0 then 50 else v
  | none => 50

/-- The recommendations filter predicate `job.matchScore >= minMatchScore`,
i.e. whether a scored job is recommended to the candidate. -/
def recommendedFlag (p : Profile) (j : Job) : Bool :=
  minThreshold p.prefs.minMatchScore ≤ (recMatch p j).matchScore

/-- The skill-ratio-only formula of the job-listing handler, repeated verbatim
in the job-detail handler, the apply handler and the AI match route:
`jobSkills.length > 0 ? Math.round((matchingSkills.length / jobSkills.length) * 100) : 0`. -/
def simpleMatchScore (p : Profile) (j : Job) : ℤ :=
  if 0 < (jobSkillsL j).length then
    jsRound ((((matchingSkills p j).length : ℚ) / ((jobSkillsL j).length : ℚ)) * 100)
  else 0

/-! ### Concrete inputs used as test vectors and witnesses -/

/-- Empty-everything profile for the edge-case witness. -/
def edgeProfile : Profile := ⟨[], ⟨[], [], none, none⟩⟩

/-- Job with no required skills and no location for the edge-case witness. -/
def edgeJob : Job := ⟨"Backend Engineer", none, none, []⟩

/-- Profile whose stored minimum match score is 0. -/
def profileMin0 : Profile := ⟨["react"], ⟨[], [], none, some 0⟩⟩

/-- Job matching one of two required skills for `profileMin0` (score 25). -/
def jobTwoSkills : Job := ⟨"Backend Engineer", none, none, ["React", "GraphQL"]⟩

/-- Profile preferring remote work. -/
def profileRemotePref : Profile := ⟨[], ⟨[], [], some "remote", none⟩⟩

/-- Hybrid-classified job. -/
def jobHybrid : Job := ⟨"Backend Engineer", none, some "hybrid", []⟩

/-- Remote-classified job. -/
def jobRemote : Job := ⟨"Backend Engineer", none, some "remote", []⟩

/-- Profile for the determinism witness. -/
def detProfile : Profile := ⟨["python"], ⟨["Data"], ["Berlin"], some "remote", some 40⟩⟩

/-- Job for the determinism witness. -/
def detJob : Job := ⟨"Data Scientist", some "Berlin", some "remote", ["Python", "SQL"]⟩

/-- Profile separating the two score formulas. -/
def ratioProfile : Profile := ⟨["react"], ⟨[], [], none, none⟩⟩

/-- Job separating the two score formulas: ratio formula gives 50, the
four-factor formula gives 25. -/
def ratioJob : Job := ⟨"Platform Engineer", none, none, ["React", "GraphQL"]⟩

/-- Profile with stored threshold 0 for the falsy-coalescing witness. -/
def zeroThresholdProfile : Profile := ⟨["react"], ⟨[], [], none, some 0⟩⟩

/-- Job scoring 25 against `zeroThresholdProfile`. -/
def zeroThresholdJob : Job := ⟨"Data Engineer", none, none, ["React", "GraphQL"]⟩

/-- Number of job-required skills matched by some candidate skill, stated on
the raw (un-lowercased) inputs. -/
def matchCount (p : Profile) (j : Job) : ℕ :=
  (j.skillsRequired.filter fun s => p.skills.any fun c => skillMatches c s).length

example : strIncludes "react.js" "react" = true := by decide
example : strIncludes "react" "react.js" = false := by decide
example : jsRound ((1 : ℚ) / 2 * 50) = 25 := by unfold jsRound; norm_num
example : jsRound ((1 : ℚ) / 3 * 50 + 20) = 37 := by unfold jsRound; norm_num

/-! ### Structural lemmas about the embedding -/

/-- The check `beginsWith hay needle` decides the prefix relation. -/
lemma beginsWith_iff (needle hay : List Char) :
    beginsWith hay needle = true ↔ ∃ post, hay = needle ++ post := by
  induction needle generalizing hay with
  | nil =>
    cases hay <;> simp [beginsWith]
  | cons b bs ih =>
    cases hay with
    | nil => simp [beginsWith]
    | cons a t =>
      simp only [beginsWith, Bool.and_eq_true, beq_iff_eq, ih, List.cons_append,
        List.cons.injEq]
      constructor
      · rintro ⟨rfl, post, rfl⟩
        exact ⟨post, rfl, rfl⟩
      · rintro ⟨post, rfl, rfl⟩
        exact ⟨rfl, post, rfl⟩

/-- The check `containsSub hay needle` decides contiguous-substring occurrence. -/
lemma containsSub_iff (hay needle : List Char) :
    containsSub hay needle = true ↔ ∃ pre post, hay = pre ++ needle ++ post := by
  induction hay with
  | nil =>
    simp only [containsSub, List.isEmpty_iff]
    constructor
    · rintro rfl
      exact ⟨[], [], rfl⟩
    · rintro ⟨pre, post, h⟩
      rcases List.append_eq_nil.mp h.symm with ⟨h1, h2⟩
      rcases List.append_eq_nil.mp h1 with ⟨-, h3⟩
      exact h3
  | cons a t ih =>
    simp only [containsSub, Bool.or_eq_true, beginsWith_iff, ih]
    constructor
    · rintro (⟨post, h⟩ | ⟨pre, post, h⟩)
      · exact ⟨[], post, by simpa using h⟩
      · exact ⟨a :: pre, post, by simp [h]⟩
    · rintro ⟨pre, post, h⟩
      cases pre with
      | nil => exact Or.inl ⟨post, by simpa using h⟩
      | cons x xs =>
        rw [List.cons_append, List.cons_append, List.cons.injEq] at h
        exact Or.inr ⟨xs, post, h.2⟩

/-- The matching-skill list is a filtering of the job-skill list. -/
lemma matchingSkills_length_le (p : Profile) (j : Job) :
    (matchingSkills p j).length ≤ (jobSkillsL j).length :=
  List.length_filter_le _ _

lemma jobSkillsL_length (j : Job) :
    (jobSkillsL j).length = j.skillsRequired.length :=
  List.length_map _ _

/-- The code's matching-skill count equals the raw-input match count. -/
lemma matchingSkills_length_eq (p : Profile) (j : Job) :
    (matchingSkills p j).length = matchCount p j := by
  unfold matchingSkills matchCount jobSkillsL userSkillsL skillMatches
  rw [List.filter_map, List.length_map]
  refine congrArg List.length (List.filter_congr fun s _ => ?_)
  rw [Function.comp_apply, List.any_map]
  rfl

/-! ### Bounds -/

lemma skillScoreQ_nonneg (p : Profile) (j : Job) : 0 ≤ skillScoreQ p j := by
  unfold skillScoreQ
  split_ifs
  · positivity
  · norm_num

lemma skillScoreQ_le (p : Profile) (j : Job) : skillScoreQ p j ≤ 50 := by
  unfold skillScoreQ
  split_ifs with h
  · have hle : (matchingSkills p j).length ≤ (jobSkillsL j).length :=
      matchingSkills_length_le p j
    have h1 : ((matchingSkills p j).length : ℚ) / ((jobSkillsL j).length : ℚ) ≤ 1 := by
      rw [div_le_one (by exact_mod_cast h)]
      exact_mod_cast hle
    nlinarith
  · norm_num

lemma recScoreQ_nonneg (p : Profile) (j : Job) : 0 ≤ recScoreQ p j := by
  unfold recScoreQ roleScoreQ locScoreQ remoteScoreQ
  have h := skillScoreQ_nonneg p j
  split_ifs <;> linarith

lemma recScoreQ_le_100 (p : Profile) (j : Job) : recScoreQ p j ≤ 100 := by
  unfold recScoreQ roleScoreQ locScoreQ remoteScoreQ
  have h := skillScoreQ_le p j
  split_ifs <;> linarith

lemma jsRound_nonneg {q : ℚ} (h : 0 ≤ q) : 0 ≤ jsRound q := by
  unfold jsRound
  positivity

lemma jsRound_le_100 {q : ℚ} (h : q ≤ 100) : jsRound q ≤ 100 := by
  unfold jsRound
  have h2 : ⌊q + 1 / 2⌋ ≤ ⌊(100 : ℚ) + 1 / 2⌋ := Int.floor_le_floor (by linarith)
  have h3 : ⌊(100 : ℚ) + 1 / 2⌋ = 100 := by norm_num
  omega

example :
    (recMatch ⟨["react"], ⟨[], [], none, none⟩⟩
      ⟨"x", none, none, ["React", "GraphQL"]⟩).matchScore = 25 := by
  have hm : matchingSkills ⟨["react"], ⟨[], [], none, none⟩⟩
      ⟨"x", none, none, ["React", "GraphQL"]⟩ = ["react"] := by decide
  have hr : roleHit ⟨["react"], ⟨[], [], none, none⟩⟩
      ⟨"x", none, none, ["React", "GraphQL"]⟩ = false := by decide
  simp only [recMatch, recScoreQ, skillScoreQ, roleScoreQ, locScoreQ, remoteScoreQ,
    hm, hr, locHit, remoteHit, jobSkillsL, jsRound]
  norm_num

/-- The skill reason string never collides with a reason whose last character
is not `s`. -/
lemma skillReason_ne (M : ℕ) (t : String) (ht : t.data.getLast? ≠ some 's') :
    toString M ++ " skill matches" ≠ t := by
  intro h
  apply ht
  rw [← h, String.data_append, List.getLast?_append_of_ne_nil _ (by decide)]
  decide

/-- C1.  In the recommendations path the skill component is `50 × (M/T)` when
`T > 0` and `0` when `T = 0`, where `T` counts the job-required skills and `M`
counts the job-required skills matched (case-insensitive substring either way)
by some candidate skill; the reason `"<M> skill matches"` is in the reason
list exactly when `M > 0`. -/
theorem skill_component_formula (p : Profile) (j : Job) :
    (skillScoreQ p j =
      if 0 < j.skillsRequired.length then
        50 * ((matchCount p j : ℚ) / (j.skillsRequired.length : ℚ))
      else 0)
    ∧ ((toString (matchCount p j) ++ " skill matches") ∈ (recMatch p j).matchReasons
        ↔ 0 < matchCount p j) := by
  constructor
  · unfold skillScoreQ
    rw [matchingSkills_length_eq, jobSkillsL_length]
    split_ifs
    · ring
    · rfl
  · rcases Nat.eq_zero_or_pos (matchCount p j) with hM | hM
    · rw [hM]
      simp only [Nat.lt_irrefl, iff_false]
      intro hmem
      have hM0 : (matchingSkills p j).length = 0 := by
        rw [matchingSkills_length_eq, hM]
      simp only [recMatch, recReasons, hM0, Nat.lt_irrefl, and_false, if_false,
        List.nil_append, List.mem_append] at hmem
      rcases hmem with (h | h) | h <;>
        · split_ifs at h <;> simp only [List.mem_singleton, List.not_mem_nil] at h
          · first
            | exact skillReason_ne 0 _ (by decide) h
    · have hM0 : 0 < (matchingSkills p j).length := by
        rw [matchingSkills_length_eq]; exact hM
      have hT : 0 < (jobSkillsL j).length := lt_of_lt_of_le hM0 (matchingSkills_length_le p j)
      refine iff_of_true ?_ hM
      simp only [recMatch, recReasons, List.mem_append]
      left; left; left
      rw [if_pos ⟨hT, hM0⟩]
      rw [matchingSkills_length_eq]
      exact List.mem_singleton.mpr rfl

/-- C2.  The four-factor weighted score of the recommendations path is an
integer in `[0, 100]` for every profile and job. -/
theorem rec_score_in_range (p : Profile) (j : Job) :
    0 ≤ (recMatch p j).matchScore ∧ (recMatch p j).matchScore ≤ 100 :=
  ⟨jsRound_nonneg (recScoreQ_nonneg p j), jsRound_le_100 (recScoreQ_le_100 p j)⟩

/-- C9.  The skill-ratio-only formula is likewise bounded in `[0, 100]`: the
matching-skill list filters the job-skill list, so `M ≤ T` and
`round(100 × M/T)` cannot exceed 100 (and is 0 when `T = 0`). -/
theorem simple_score_in_range (p : Profile) (j : Job) :
    0 ≤ simpleMatchScore p j ∧ simpleMatchScore p j ≤ 100 := by
  unfold simpleMatchScore
  split_ifs with h
  · constructor
    · exact jsRound_nonneg (by positivity)
    · apply jsRound_le_100
      have hle := matchingSkills_length_le p j
      have h1 : ((matchingSkills p j).length : ℚ) / ((jobSkillsL j).length : ℚ) ≤ 1 := by
        rw [div_le_one (by exact_mod_cast h)]
        exact_mod_cast hle
      nlinarith
  · norm_num

/-- C7.  The scorer is deterministic: identical profile and job inputs yield
an identical score and an identical, identically ordered reason list. -/
theorem scorer_deterministic (p₁ p₂ : Profile) (j₁ j₂ : Job)
    (hp : p₁ = p₂) (hj : j₁ = j₂) :
    (recMatch p₁ j₁).matchScore = (recMatch p₂ j₂).matchScore ∧
    (recMatch p₁ j₁).matchReasons = (recMatch p₂ j₂).matchReasons := by
  subst hp
  subst hj
  exact ⟨rfl, rfl⟩

/-- Witness for C7 at a concrete profile and job. -/
theorem scorer_deterministic_witness :
    (recMatch detProfile detJob).matchScore = (recMatch detProfile detJob).matchScore ∧
    (recMatch detProfile detJob).matchReasons = (recMatch detProfile detJob).matchReasons :=
  scorer_deterministic detProfile detProfile detJob detJob rfl rfl

/-- C4.  The scorer is a total function and each optional or empty input
degrades its component to a zero contribution: empty candidate skills or
empty job-required skills zero the skill component, a missing job location
zeroes the location component, and a missing remote preference zeroes the
remote component. -/
theorem scorer_total_edge_zero (p : Profile) (j : Job) :
    (p.skills = [] → skillScoreQ p j = 0)
    ∧ (j.skillsRequired = [] → skillScoreQ p j = 0)
    ∧ (j.location = none → locScoreQ p j = 0)
    ∧ (p.prefs.remotePreference = none → remoteScoreQ p j = 0) := by
  refine ⟨fun h => ?_, fun h => ?_, fun h => ?_, fun h => ?_⟩
  · simp [skillScoreQ, matchingSkills, userSkillsL, h]
  · simp [skillScoreQ, jobSkillsL, h]
  · simp [locScoreQ, locHit, h]
  · simp [remoteScoreQ, remoteHit, h]

/-- Witness for C4 at a concrete empty profile and skill-less job. -/
theorem scorer_total_edge_zero_witness :
    skillScoreQ edgeProfile edgeJob = 0 ∧ locScoreQ edgeProfile edgeJob = 0 ∧
    remoteScoreQ edgeProfile edgeJob = 0 :=
  ⟨(scorer_total_edge_zero edgeProfile edgeJob).1 rfl,
   (scorer_total_edge_zero edgeProfile edgeJob).2.2.1 rfl,
   (scorer_total_edge_zero edgeProfile edgeJob).2.2.2 rfl⟩

/-- C5.  Skill matching is symmetric substring containment after lowercasing:
`c` matches `j` exactly when the lowercase of one contains the lowercase of
the other, and in particular "React.js" and "React" match in both roles. -/
theorem skill_match_symmetric_substring :
    (∀ c j : String, skillMatches c j = true ↔
      (∃ pre post, (lowerStr c).data = pre ++ (lowerStr j).data ++ post) ∨
      (∃ pre post, (lowerStr j).data = pre ++ (lowerStr c).data ++ post))
    ∧ skillMatches "React.js" "React" = true
    ∧ skillMatches "React" "React.js" = true := by
  refine ⟨fun c j => ?_, by decide, by decide⟩
  simp only [skillMatches, pairMatches, strIncludes, Bool.or_eq_true,
    containsSub_iff, String.toList]

/-- The remote condition, under a non-empty preference, is exactly equality
of the stored preference with the job classification. -/
lemma remoteHit_iff (p : Profile) (j : Job)
    (hne : p.prefs.remotePreference ≠ some "") :
    remoteHit p j = true ↔
      ∃ pref, p.prefs.remotePreference = some pref ∧ j.remoteType = some pref := by
  unfold remoteHit
  cases hpref : p.prefs.remotePreference with
  | none => simp
  | some pref =>
    have hp : pref ≠ "" := fun h => hne (by rw [hpref, h])
    simp [hp, bne_iff_ne, beq_iff_eq]

/-- C6.  The remote component awards its 15 points exactly when the profile
preference is set and string-equal to the job classification; preference
"remote" against classification "hybrid" contributes 0. -/
theorem remote_pref_exact_equality :
    (∀ p j, p.prefs.remotePreference ≠ some "" →
      (remoteScoreQ p j = 15 ↔
        ∃ pref, p.prefs.remotePreference = some pref ∧ j.remoteType = some pref))
    ∧ remoteScoreQ profileRemotePref jobHybrid = 0 := by
  constructor
  · intro p j hne
    have h15 : remoteScoreQ p j = 15 ↔ remoteHit p j = true := by
      unfold remoteScoreQ
      split_ifs with h
      · simp [h]
      · simp only [h, iff_false, Bool.false_eq_true]
        norm_num
    rw [h15, remoteHit_iff p j hne]
  · have h : remoteHit profileRemotePref jobHybrid = false := by decide
    simp [remoteScoreQ, h]

/-- Witness for C6: preference "remote" against a remote-classified job earns
the full 15 points. -/
theorem remote_pref_exact_equality_witness :
    remoteScoreQ profileRemotePref jobRemote = 15 :=
  (remote_pref_exact_equality.1 profileRemotePref jobRemote (by decide)).mpr
    ⟨"remote", rfl, rfl⟩

/-- The four-factor score of the formula-separating input evaluates to 25. -/
lemma ratio_rec_score : (recMatch ratioProfile ratioJob).matchScore = 25 := by
  have hm : matchingSkills ratioProfile ratioJob = ["react"] := by decide
  have hr : roleHit ratioProfile ratioJob = false := by decide
  have hl : locHit ratioProfile ratioJob = false := by decide
  have hrem : remoteHit ratioProfile ratioJob = false := by decide
  have hlen : (jobSkillsL ratioJob).length = 2 := by decide
  simp only [recMatch, recScoreQ, skillScoreQ, roleScoreQ, locScoreQ, remoteScoreQ,
    hm, hr, hl, hrem, hlen, List.length_singleton, jsRound]
  norm_num

/-- The ratio-only score of the formula-separating input evaluates to 50. -/
lemma ratio_simple_score : simpleMatchScore ratioProfile ratioJob = 50 := by
  have hm : matchingSkills ratioProfile ratioJob = ["react"] := by decide
  have hlen : (jobSkillsL ratioJob).length = 2 := by decide
  simp only [simpleMatchScore, hm, hlen, List.length_singleton, jsRound]
  norm_num

/-- C8.  The ratio-only formula of the listing, detail and apply handlers and
the four-factor formula of the recommendations handler disagree on some
input: one matching skill out of two scores 50 under the first and 25 under
the second. -/
theorem two_score_formulas_differ :
    ∃ (p : Profile) (j : Job), simpleMatchScore p j ≠ (recMatch p j).matchScore := by
  refine ⟨ratioProfile, ratioJob, ?_⟩
  rw [ratio_simple_score, ratio_rec_score]
  norm_num

/-- Score of the zero-threshold profile against the half-matching job. -/
lemma profileMin0_score : (recMatch profileMin0 jobTwoSkills).matchScore = 25 := by
  have hm : matchingSkills profileMin0 jobTwoSkills = ["react"] := by decide
  have hr : roleHit profileMin0 jobTwoSkills = false := by decide
  have hl : locHit profileMin0 jobTwoSkills = false := by decide
  have hrem : remoteHit profileMin0 jobTwoSkills = false := by decide
  have hlen : (jobSkillsL jobTwoSkills).length = 2 := by decide
  simp only [recMatch, recScoreQ, skillScoreQ, roleScoreQ, locScoreQ, remoteScoreQ,
    hm, hr, hl, hrem, hlen, List.length_singleton, jsRound]
  norm_num

/-- Counterexample to C3 as stated: a profile whose stored threshold is 0 is
not compared against that stored value — its job scores 25 ≥ 0, yet the
recommendations filter rejects it. -/
theorem recommended_uses_falsy_default_cex :
    profileMin0.prefs.minMatchScore = some 0 ∧
    (0 : ℤ) ≤ (recMatch profileMin0 jobTwoSkills).matchScore ∧
    recommendedFlag profileMin0 jobTwoSkills = false := by
  refine ⟨rfl, ?_, ?_⟩
  · rw [profileMin0_score]
    norm_num
  · unfold recommendedFlag
    rw [profileMin0_score]
    decide

/-- C3 (amended).  The recommended flag equals `score ≥ threshold`, where the
threshold is the profile's stored `minMatchScore` when that is set and
nonzero, and 50 when it is unset or stored as 0. -/
theorem recommended_flag_amended (p : Profile) (j : Job) :
    recommendedFlag p j = true ↔
      (match p.prefs.minMatchScore with
        | some v => if v = 0 then (50 : ℤ) else v
        | none => 50) ≤ (recMatch p j).matchScore := by
  unfold recommendedFlag minThreshold
  simp

/-- Score of the zero-threshold witness pair. -/
lemma zeroThreshold_score :
    (recMatch zeroThresholdProfile zeroThresholdJob).matchScore = 25 := by
  have hm : matchingSkills zeroThresholdProfile zeroThresholdJob = ["react"] := by decide
  have hr : roleHit zeroThresholdProfile zeroThresholdJob = false := by decide
  have hl : locHit zeroThresholdProfile zeroThresholdJob = false := by decide
  have hrem : remoteHit zeroThresholdProfile zeroThresholdJob = false := by decide
  have hlen : (jobSkillsL zeroThresholdJob).length = 2 := by decide
  simp only [recMatch, recScoreQ, skillScoreQ, roleScoreQ, locScoreQ, remoteScoreQ,
    hm, hr, hl, hrem, hlen, List.length_singleton, jsRound]
  norm_num

/-- C10.  Because the threshold is taken with JS falsy coalescing
(`minMatchScore || 50`), a profile storing 0 is filtered at 50: every job
scoring in `[1, 49]` is excluded although its score exceeds the stored 0. -/
theorem zero_min_score_filtered_at_50 (p : Profile) (j : Job)
    (h0 : p.prefs.minMatchScore = some 0)
    (h1 : 1 ≤ (recMatch p j).matchScore) (h2 : (recMatch p j).matchScore ≤ 49) :
    recommendedFlag p j = false ∧ 0 < (recMatch p j).matchScore := by
  refine ⟨?_, h1⟩
  unfold recommendedFlag
  rw [h0]
  have h50 : minThreshold (some 0) = 50 := rfl
  rw [h50]
  simp only [decide_eq_false_iff_not, not_le]
  omega

/-- Witness for C10: the zero-threshold profile's job scores 25 yet is not
recommended. -/
theorem zero_min_score_filtered_at_50_witness :
    recommendedFlag zeroThresholdProfile zeroThresholdJob = false ∧
    0 < (recMatch zeroThresholdProfile zeroThresholdJob).matchScore :=
  zero_min_score_filtered_at_50 zeroThresholdProfile zeroThresholdJob rfl
    (by rw [zeroThreshold_score]; norm_num)
    (by rw [zeroThreshold_score]; norm_num)
